import Mathlib

/-
Shallow embedding of the authority authorization and routing core of the
complaint_system repository (complaints/views.py, complaints/jwt_auth.py,
complaints/models.py, complaints/urls.py).  Machine strings are Lean
String, nullable Django fields are Option, Python exceptions are an
explicit result constructor.  Python truthiness of an optional string
(None and "" are falsy) is made explicit at each use site.
-/

namespace ComplaintSystem

/-- Result of running a piece of Python code that may raise: either a raised
exception carrying its message, or a normal value. -/
inductive PyResult (α : Type) where
  | exn (msg : String)
  | ok (val : α)
deriving DecidableEq

/-- DEPARTMENT_CHOICES from complaints/models.py lines 4-9: the static
department directory of (code, display name) pairs, including the
privileged code admin. -/
def DEPARTMENT_CHOICES : List (String × String) :=
  [("admin", "Central Administration"),
   ("power", "Power & Electricity"),
   ("health", "Public Health & Engineering"),
   ("works", "Public Works")]

/-- Lookup in dict(DEPARTMENT_CHOICES): display name of a department code,
none when the code is not in the directory. -/
def deptLookup (key : String) : Option String :=
  (DEPARTMENT_CHOICES.find? (fun kv => kv.1 = key)).map (fun kv => kv.2)

/-- Python truthiness of a nullable string: None and the empty string are
falsy, every other string is truthy. -/
def pyTruthy : Option String → Bool
  | none => false
  | some s => s ≠ ""

/-- Whether the first list is a leading run of the second. -/
def leadingRun : List Char → List Char → Bool
  | [], _ => true
  | _ :: _, [] => false
  | a :: as, b :: bs => a = b && leadingRun as bs

/-- Whether the first list occurs contiguously anywhere in the second. -/
def hasRun (needle : List Char) : List Char → Bool
  | [] => leadingRun needle []
  | b :: bs => leadingRun needle (b :: bs) || hasRun needle bs

/-- Python startswith on strings. -/
def strStarts (s pre : String) : Bool :=
  leadingRun pre.toList s.toList

/-- Split a character list on every occurrence of a separator, keeping
empty pieces, as Python split with an explicit separator does. -/
def splitOnChar (l : List Char) (sep : Char) : List (List Char) :=
  match l with
  | [] => [[]]
  | c :: rest =>
    let r := splitOnChar rest sep
    if c = sep then [] :: r
    else
      match r with
      | [] => [[c]]
      | h :: t => (c :: h) :: t

/-- Python int conversion of a decimal-digit string: some value when the
string is nonempty and all digits, none otherwise. -/
def digitsToNat (s : String) : Option Nat :=
  if s ≠ "" ∧ s.toList.all Char.isDigit then
    some (s.toList.foldl (fun n c => 10 * n + (c.toNat - 48)) 0)
  else none

/-- ASCII lowercase of a string. -/
def strToLower (s : String) : String :=
  String.mk (s.toList.map Char.toLower)

/- ===== urlparse model =====
Model of CPython urllib.parse.urlparse (3.8+ semantics) restricted to what
the repository touches: scheme detection, netloc extraction with the
Invalid IPv6 URL ValueError on unbalanced square brackets, fragment and
query splitting, params splitting, and geturl reconstruction.  The
removal of tab, carriage return and newline characters (bpo-43882)
is included; IDNA/NFKC checks and the 3.11+ bracketed-host validation are
not modelled (they reject further inputs, never accept more). -/

/-- Parsed URL components, as returned by urlparse. -/
structure UrlParts where
  scheme : String
  netloc : String
  path : String
  params : String
  query : String
  fragment : String
deriving DecidableEq

/-- Characters allowed in a URL scheme after the first letter. -/
def isSchemeChar (c : Char) : Bool :=
  c.isAlphanum || c = '+' || c = '-' || c = '.'

/-- Split a leading scheme from a URL, CPython style: the text before the
first colon is a scheme when the colon is not first, the first character
is an ASCII letter and the rest are scheme characters; the scheme is
lowercased.  Returns (scheme, remainder). -/
def splitScheme (l : List Char) : String × List Char :=
  match l.findIdx? (fun c => c = ':') with
  | some i =>
    if 0 < i then
      match l with
      | [] => ("", l)
      | c :: _ =>
        if c.isAlpha ∧ ((l.take i).drop 1).all isSchemeChar then
          (String.mk ((l.take i).map Char.toLower), l.drop (i + 1))
        else ("", l)
    else ("", l)
  | none => ("", l)

/-- Split the network location after a leading double slash: the netloc
runs until the first slash, question mark or hash.  Raises
Invalid IPv6 URL when the netloc contains an unbalanced square bracket,
exactly as CPython urlsplit does.  Returns (netloc, remainder). -/
def splitNetloc (l : List Char) : PyResult (String × List Char) :=
  match l with
  | '/' :: '/' :: rest =>
    let stop : Char → Bool := fun c => c = '/' || c = '?' || c = '#'
    let netloc := rest.takeWhile (fun c => !stop c)
    let rem := rest.dropWhile (fun c => !stop c)
    if (netloc.contains '[' ∧ ¬ netloc.contains ']')
        ∨ (netloc.contains ']' ∧ ¬ netloc.contains '[') then
      .exn "Invalid IPv6 URL"
    else .ok (String.mk netloc, rem)
  | _ => .ok ("", l)

/-- Split a list at the first occurrence of a separator character:
(before, after without the separator); the whole list and [] when the
separator does not occur.  Models Python split(sep, 1). -/
def splitAtFirst (l : List Char) (sep : Char) : List Char × List Char :=
  match l with
  | [] => ([], [])
  | c :: rest =>
    if c = sep then ([], rest)
    else
      let (before, after) := splitAtFirst rest sep
      (c :: before, after)

/-- Index of the last occurrence of a character, none when absent. -/
def rfindIdx (l : List Char) (c : Char) : Option Nat :=
  match (l.reverse).findIdx? (fun x => x = c) with
  | some j => some (l.length - 1 - j)
  | none => none

/-- Index of the first occurrence of a character at or after position
start, none when absent from that point on. -/
def findIdxFrom (l : List Char) (c : Char) (start : Nat) : Option Nat :=
  match (l.drop start).findIdx? (fun x => x = c) with
  | some j => some (start + j)
  | none => none

/-- CPython _splitparams as invoked by urlparse when a semicolon occurs in
the path: params begin at the first semicolon of the last path segment.
Returns (path, params). -/
def splitParams (path : List Char) : List Char × List Char :=
  if path.contains ';' then
    if path.contains '/' then
      match rfindIdx path '/' with
      | some r =>
        match findIdxFrom path ';' r with
        | some i => (path.take i, path.drop (i + 1))
        | none => (path, [])
      | none => (path, [])
    else
      match path.findIdx? (fun x => x = ';') with
      | some i => (path.take i, path.drop (i + 1))
      | none => (path, [])
  else (path, [])

/-- urllib.parse.urlparse: remove unsafe bytes, split scheme, netloc
(which may raise Invalid IPv6 URL), fragment, query and params. -/
def urlparse (s : String) : PyResult UrlParts :=
  let l := s.toList.filter (fun c => c ≠ '\t' ∧ c ≠ '\r' ∧ c ≠ '\n')
  let (scheme, l) := splitScheme l
  match splitNetloc l with
  | .exn m => .exn m
  | .ok (netloc, l) =>
    let (l, fragment) :=
      if l.contains '#' then splitAtFirst l '#' else (l, [])
    let (l, query) :=
      if l.contains '?' then splitAtFirst l '?' else (l, [])
    let (path, params) := splitParams l
    .ok ⟨scheme, netloc, String.mk path, String.mk params,
         String.mk query, String.mk fragment⟩

/-- ParseResult.geturl via urlunparse and urlunsplit: reconstruct the URL
string from the parsed components. -/
def geturl (u : UrlParts) : String :=
  let url := if u.params ≠ "" then u.path ++ ";" ++ u.params else u.path
  let url :=
    if u.netloc ≠ "" ∨ (url ≠ "" ∧ strStarts url "//") then
      "//" ++ u.netloc ++ (if url ≠ "" ∧ ¬ strStarts url "/" then "/" ++ url else url)
    else url
  let url := if u.scheme ≠ "" then u.scheme ++ ":" ++ url else url
  let url := if u.query ≠ "" then url ++ "?" ++ u.query else url
  if u.fragment ≠ "" then url ++ "#" ++ u.fragment else url

/-- The path the login view works with: parsed.path or parsed.geturl()
(views.py line 97), with Python or-truthiness on the empty string. -/
def extractPath (u : UrlParts) : String :=
  if u.path ≠ "" then u.path else geturl u

/-- The nonempty segments of a slash-separated path, as the list
comprehension over path split of views.py line 99 produces them. -/
def pathParts (path : String) : List String :=
  ((splitOnChar path.toList '/').map String.mk).filter (fun p => p ≠ "")

/-- Department resolution from a path string alone, following the words of
the specification section 4.1: none when the path does not begin with the
authority route segment; admin when the second nonempty segment is the
dashboard alias; otherwise the second nonempty segment itself. -/
def resolveFromPath (path : String) : Option String :=
  if strStarts path "/authority/" then
    match pathParts path with
    | _ :: key :: _ => some (if key = "dashboard" then "admin" else key)
    | _ => none
  else none

/-- The department resolver inlined in authority_login (views.py lines
93-105): requested_dept stays None for a falsy next_url; otherwise the
next_url is urlparsed (which may raise), the path (or geturl fallback) is
taken, and when it starts with /authority/ and has a second nonempty
segment, that segment (with dashboard mapped to admin) is the result. -/
def requestedDept (next_url : String) : PyResult (Option String) :=
  if next_url = "" then .ok none
  else
    match urlparse next_url with
    | .exn m => .exn m
    | .ok parsed =>
      let path := extractPath parsed
      if strStarts path "/authority/" then
        match pathParts path with
        | _ :: key :: _ => .ok (some (if key = "dashboard" then "admin" else key))
        | _ => .ok none
      else .ok none

/- ===== Accounts, tokens, login flow ===== -/

/-- The User model of complaints/models.py restricted to the fields the
authority core reads: id, username, is_staff, department (nullable and
blankable, hence Option with a possible empty string) and is_active. -/
structure Account where
  id : Nat
  username : String
  isStaff : Bool
  department : Option String
  isActive : Bool
deriving DecidableEq

/-- The claims generate_jwt_tokens (jwt_auth.py lines 14-34) embeds into
both the refresh and the access token: user_id, username, department and
is_staff.  The department claim is Option String because token.get can in
general yield None, though generate_jwt_tokens always sets a string. -/
structure TokenClaims where
  userId : Nat
  username : String
  department : Option String
  isStaff : Bool
deriving DecidableEq

/-- generate_jwt_tokens user department: both tokens carry the same four
claims, with the department claim set to the given department string. -/
def generate_jwt_tokens (user : Account) (department : String) :
    TokenClaims × TokenClaims :=
  let claims : TokenClaims :=
    ⟨user.id, user.username, some department, user.isStaff⟩
  (claims, claims)

/-- The reason a POST to authority_login renders the login page again with
an error message instead of establishing a session (views.py lines
68-169): invalid credentials, non-staff account, mismatch against the
requested admin dashboard, mismatch against a requested department slug
(carried), or no department assigned. -/
inductive LoginReject where
  | invalidCredentials
  | notStaff
  | adminMismatch
  | deptMismatch (slug : String)
  | noDepartment
deriving DecidableEq

/-- Where a successful authority login redirects. -/
inductive RedirectTarget where
  | url (u : String)
  | authorityDashboard
  | departmentDashboard (slug : String)
deriving DecidableEq

/-- The observable kind of the response authority_login returns on POST:
a re-render of the login page carrying an error reason, or a redirect. -/
inductive RespKind where
  | renderLogin (reason : LoginReject)
  | redirect (target : RedirectTarget)
deriving DecidableEq

/-- An HTTP response as the login flow builds it: its kind plus the list
of (cookie name, token claims) pairs set on it.  render calls construct a
response with no cookies; set_jwt_cookies appends the two authority
cookies. -/
structure HttpResponse where
  kind : RespKind
  cookies : List (String × TokenClaims)
deriving DecidableEq

/-- set_jwt_cookies (jwt_auth.py lines 132-150): sets the
authority_access_token and authority_refresh_token cookies on the given
response. -/
def set_jwt_cookies (r : HttpResponse) (tokens : TokenClaims × TokenClaims) :
    HttpResponse :=
  { r with cookies := r.cookies ++
      [("authority_access_token", tokens.1),
       ("authority_refresh_token", tokens.2)] }

/-- The POST branch of authority_login (views.py lines 68-169).
authResult is the return of authenticate(request, username, password):
some account on correct credentials, none otherwise.  next_url is the
next parameter (empty string when absent).  The result is exn when the
inline urlparse raises, otherwise the response built by the view.
Note that the department string passed to generate_jwt_tokens is
user.department (written here as getD applied to the department, which
each guarding branch has just equated with a concrete value). -/
def authority_login_post (authResult : Option Account) (next_url : String) :
    PyResult HttpResponse :=
  match authResult with
  | none => .ok ⟨.renderLogin .invalidCredentials, []⟩
  | some user =>
    if ¬ user.isStaff then .ok ⟨.renderLogin .notStaff, []⟩
    else
      match requestedDept next_url with
      | .exn m => .exn m
      | .ok requested =>
        match requested with
        | some key =>
          if key = "admin" then
            if user.department = some "admin" then
              .ok (set_jwt_cookies
                ⟨.redirect (if next_url ≠ "" then .url next_url
                            else .authorityDashboard), []⟩
                (generate_jwt_tokens user (user.department.getD "")))
            else .ok ⟨.renderLogin .adminMismatch, []⟩
          else
            if user.department = some key then
              .ok (set_jwt_cookies
                ⟨.redirect (.departmentDashboard key), []⟩
                (generate_jwt_tokens user (user.department.getD "")))
            else .ok ⟨.renderLogin (.deptMismatch key), []⟩
        | none =>
          match user.department with
          | some d =>
            if d ≠ "" then
              if d = "admin" then
                .ok (set_jwt_cookies ⟨.redirect .authorityDashboard, []⟩
                  (generate_jwt_tokens user d))
              else if (deptLookup d).isSome then
                .ok (set_jwt_cookies ⟨.redirect (.departmentDashboard d), []⟩
                  (generate_jwt_tokens user d))
              else .ok ⟨.renderLogin .noDepartment, []⟩
            else .ok ⟨.renderLogin .noDepartment, []⟩
          | none => .ok ⟨.renderLogin .noDepartment, []⟩

/- ===== Authority access guard ===== -/

/-- What reading the access token from the request yields before claim
validation: no token anywhere (neither the cookie nor a bearer header),
a token that fails signature or expiry verification, or a verified token
with its embedded claims. -/
inductive TokenRead where
  | absent
  | invalid
  | valid (claims : TokenClaims)
deriving DecidableEq

/-- get_user_from_token (jwt_auth.py lines 37-70) returns the triple
(user, department, error_message).  lookup models
User.objects.get(id=user_id): the account store by id; the is_active
filter of the query is applied explicitly.  On any failure the user and
department are None and an error message is set; the live account values
are never substituted for mismatching claims. -/
def get_user_from_token (t : TokenRead) (lookup : Nat → Option Account) :
    Option Account × Option String × Option String :=
  match t with
  | .absent => (none, none, some "No authentication token provided")
  | .invalid => (none, none, some "Invalid token")
  | .valid claims =>
    match lookup claims.userId with
    | none => (none, none, some "User not found")
    | some user =>
      if ¬ user.isActive then (none, none, some "User not found")
      else if user.isStaff ≠ claims.isStaff ∨ user.department ≠ claims.department then
        (none, none, some "Token claims do not match user state")
      else (some user, claims.department, none)

/-- Outcome of the jwt_authority_required decorator around a view:
redirect to authority_login, redirect to authority_landing, or run the
wrapped view with request.jwt_user and request.jwt_department attached. -/
inductive GuardOutcome where
  | redirectLogin
  | redirectLanding
  | proceed (user : Account) (department : Option String)
deriving DecidableEq

/-- The wrapped_view body of jwt_authority_required (jwt_auth.py lines
73-129) for a given required_department (the decorator is instantiated in
the repository with the string admin or with None).  Python truthiness of
required_department and of the department claim is explicit. -/
def jwt_authority_required (required_department : Option String)
    (t : TokenRead) (lookup : Nat → Option Account) : GuardOutcome :=
  let (user?, department, error) := get_user_from_token t lookup
  match user? with
  | none => .redirectLogin
  | some user =>
    if error.isSome then .redirectLogin
    else if ¬ user.isStaff then .redirectLanding
    else if pyTruthy required_department then
      if required_department = some "admin" then
        if department ≠ some "admin" then .redirectLanding
        else .proceed user department
      else
        if department ≠ required_department then .redirectLanding
        else .proceed user department
    else if ¬ pyTruthy department then .redirectLanding
    else .proceed user department

/- ===== Complaints, filters, dashboards, detail ===== -/

/-- The Complaint model (complaints/models.py lines 27-58) restricted to
the fields the dashboards and the detail gate read, with the related user
fields user.name and user.username inlined. -/
structure Complaint where
  id : Nat
  title : String
  description : String
  location : String
  userName : String
  userUsername : String
  priority : String
  status : String
  assigned_department : Option String
deriving DecidableEq

/-- Case-insensitive substring containment, modelling the icontains
lookup (ASCII case folding). -/
def icontains (haystack needle : String) : Bool :=
  hasRun (strToLower needle).toList (strToLower haystack).toList

/-- The five-way OR of icontains lookups of _apply_filters (views.py
lines 378-386): title, description, location, user name, user
username. -/
def matchesSearch (c : Complaint) (term : String) : Bool :=
  icontains c.title term || icontains c.description term
    || icontains c.location term || icontains c.userName term
    || icontains c.userUsername term

/-- The query parameters read by _apply_filters: q, status, priority and
(admin dashboard only) department; absent parameters arrive as their
defaults, which are the empty string for q and the sentinel all for the
rest. -/
structure FilterParams where
  q : String
  status : String
  priority : String
  department : String
deriving DecidableEq

/-- An unassigned complaint in the sense of the ORM disjunction
isnull OR empty string used throughout the views. -/
def isUnassigned (c : Complaint) : Bool :=
  decide (c.assigned_department = none ∨ c.assigned_department = some "")

/-- Python str.strip with no argument: remove leading and trailing
whitespace characters. -/
def pyStrip (s : String) : String :=
  String.mk
    (((s.toList.dropWhile Char.isWhitespace).reverse.dropWhile
      Char.isWhitespace).reverse)

/-- The free-text search step of _apply_filters: a no-op when the
stripped q is empty. -/
def searchStep (cs : List Complaint) (q : String) : List Complaint :=
  if q ≠ "" then cs.filter (fun c => matchesSearch c q) else cs

/-- The status step of _apply_filters: the sentinel all is a no-op,
otherwise exact match. -/
def statusStep (cs : List Complaint) (status : String) : List Complaint :=
  if status ≠ "all" then cs.filter (fun c => decide (c.status = status)) else cs

/-- The priority step of _apply_filters: the sentinel all is a no-op,
otherwise exact match. -/
def priorityStep (cs : List Complaint) (priority : String) : List Complaint :=
  if priority ≠ "all" then cs.filter (fun c => decide (c.priority = priority)) else cs

/-- The department step of _apply_filters (admin dashboard only):
unassigned selects null-or-empty assignment, the empty string and all are
no-ops, anything else is an exact match. -/
def departmentStep (cs : List Complaint) (dept : String) : List Complaint :=
  if dept = "unassigned" then cs.filter isUnassigned
  else if dept ≠ "" ∧ dept ≠ "all" then
    cs.filter (fun c => decide (c.assigned_department = some dept))
  else cs

/-- _apply_filters (views.py lines 365-403): strip q, then apply search,
status, priority and, when include_department, the department filter. -/
def apply_filters (cs : List Complaint) (p : FilterParams)
    (include_department : Bool) : List Complaint :=
  let l := priorityStep (statusStep (searchStep cs (pyStrip p.q)) p.status) p.priority
  if include_department then departmentStep l p.department else l

/-- The four aggregate counts rendered by _build_stats: total, pending,
a dashboard-specific third bucket (forwarded on the admin dashboard,
in-progress on a department dashboard) and resolved. -/
structure Stats where
  total : Nat
  pending : Nat
  third : Nat
  resolved : Nat
deriving DecidableEq

/-- authority_dashboard (views.py lines 479-520), after the guard:
stats over all complaints (forwarded = assignment neither null, empty nor
admin), rows filtered with the department filter included.  Returns
(stats, listed rows). -/
def authority_dashboard (cs : List Complaint) (p : FilterParams) :
    Stats × List Complaint :=
  let filtered := apply_filters cs p true
  (⟨cs.length,
    (cs.filter (fun c => decide (c.status = "pending"))).length,
    (cs.filter (fun c => decide (¬ (c.assigned_department = none
        ∨ c.assigned_department = some ""
        ∨ c.assigned_department = some "admin")))).length,
    (cs.filter (fun c => decide (c.status = "resolved"))).length⟩,
   filtered)

/-- The base visibility queryset of department_dashboard (views.py lines
540-546): complaints assigned to the slug, or with null or empty
assignment. -/
def departmentVisible (department_slug : String) (cs : List Complaint) :
    List Complaint :=
  cs.filter (fun c => decide (c.assigned_department = some department_slug
    ∨ c.assigned_department = none ∨ c.assigned_department = some ""))

/-- Result of a dashboard or detail request after the guard: a redirect
to the authority landing page carrying an error message, or a rendered
page. -/
inductive DashResult where
  | redirectLanding (msg : String)
  | page (stats : Stats) (rows : List Complaint)
deriving DecidableEq

/-- department_dashboard (views.py lines 523-583), after the guard:
department is request.jwt_department (the verified token claim),
department_slug the URL slug.  Unknown slug and slug mismatch redirect to
the landing page; otherwise stats are computed over the base visibility
queryset and the rows are that queryset with q, status and priority
filters applied (no department filter). -/
def department_dashboard (department : Option String)
    (department_slug : String) (cs : List Complaint) (p : FilterParams) :
    DashResult :=
  if (deptLookup department_slug).isNone then
    .redirectLanding "Unknown department selected."
  else if department ≠ some department_slug then
    .redirectLanding "department mismatch"
  else
    let base := departmentVisible department_slug cs
    .page
      ⟨base.length,
       (base.filter (fun c => decide (c.status = "pending"))).length,
       (base.filter (fun c => decide (c.status = "in_progress"))).length,
       (base.filter (fun c => decide (c.status = "resolved"))).length⟩
      (apply_filters base p false)

/-- The rows of a dashboard result; empty on a redirect. -/
def DashResult.rows : DashResult → List Complaint
  | .redirectLanding _ => []
  | .page _ rows => rows

/-- The stats of a dashboard result; none on a redirect. -/
def DashResult.stats : DashResult → Option Stats
  | .redirectLanding _ => none
  | .page stats _ => some stats

/-- Result of the access gate at the top of authority_complaint_detail:
redirect to the landing page with the access-denied message, or reach the
mutation form for the complaint. -/
inductive DetailResult where
  | redirectLanding
  | renderForm (c : Complaint)
deriving DecidableEq

/-- The department access gate of authority_complaint_detail (views.py
lines 586-611): department is request.jwt_department.  admin reaches the
form for any complaint; otherwise the allowed set is the truthy assigned
department of the complaint, or, when that is falsy, the requesting
department itself when truthy; a department outside the allowed set is
redirected before the form is built. -/
def authority_complaint_detail (department : Option String)
    (complaint : Complaint) : DetailResult :=
  if department = some "admin" then .renderForm complaint
  else
    let allowed : List (Option String) :=
      if pyTruthy complaint.assigned_department then
        [complaint.assigned_department]
      else if pyTruthy department then [department] else []
    if department ∉ allowed then .redirectLanding
    else .renderForm complaint

/- ===== URL routing (complaints/urls.py) ===== -/

/-- The view a path dispatches to, one constructor per urlpatterns entry
plus the not-found fallback. -/
inductive Route where
  | home
  | registerView
  | userLogin
  | userLogout
  | forgotPassword
  | submitComplaint
  | myComplaints
  | authorityLogin
  | authorityLogout
  | authorityLanding
  | authorityDashboard
  | authorityComplaintDetail (pk : Nat)
  | departmentDashboard (department_slug : String)
  | notFound
deriving DecidableEq

/-- A character the slug path converter accepts. -/
def isSlugChar (c : Char) : Bool :=
  c.isAlphanum || c = '-' || c = '_'

/-- Django URL dispatch over the urlpatterns of complaints/urls.py, in
declaration order: the leading slash is removed and the first matching
pattern wins; the int converter of the complaints detail route accepts
one or more decimal digits and the slug converter of the department
dashboard route accepts letters, digits, hyphens and underscores. -/
def resolve_url (p : String) : Route :=
  let s := if strStarts p "/" then String.mk (p.toList.drop 1) else p
  if s = "" then .home
  else if s = "register/" then .registerView
  else if s = "login/" then .userLogin
  else if s = "logout/" then .userLogout
  else if s = "forgot-password/" then .forgotPassword
  else if s = "submit-complaint/" then .submitComplaint
  else if s = "my-complaints/" then .myComplaints
  else if s = "authority/login/" then .authorityLogin
  else if s = "authority/logout/" then .authorityLogout
  else if s = "authority/" then .authorityLanding
  else if s = "authority/dashboard/" then .authorityDashboard
  else
    match (splitOnChar s.toList '/').map String.mk with
    | ["authority", "complaints", pk, ""] =>
      match digitsToNat pk with
      | some n => .authorityComplaintDetail n
      | none => .notFound
    | ["authority", slug, ""] =>
      if slug ≠ "" ∧ slug.toList.all isSlugChar then
        .departmentDashboard slug
      else .notFound
    | _ => .notFound

/- ===== Concrete sample data for witnesses ===== -/

/-- The filter parameters of a request with no query string: q defaults to
the empty string and the other filters to the sentinel all. -/
def noFilters : FilterParams := ⟨"", "all", "all", "all"⟩

/-- A staff account assigned to the power department. -/
def sampleUser : Account := ⟨1, "staffer", true, some "power", true⟩

/-- A staff account assigned to the admin department. -/
def sampleAdmin : Account := ⟨7, "chief", true, some "admin", true⟩

/-- An account store holding the two sample accounts. -/
def sampleLookup : Nat → Option Account := fun i =>
  if i = 1 then some sampleUser else if i = 7 then some sampleAdmin else none

/-- A complaint assigned to the power department. -/
def samplePower : Complaint :=
  ⟨1, "outage", "no power since monday", "ward 2", "Sam", "sam", "low",
   "pending", some "power"⟩

/-- A complaint assigned to the health department. -/
def sampleHealth : Complaint :=
  ⟨2, "streetlight", "lamp broken", "ward 4", "Rita", "rita", "high",
   "resolved", some "health"⟩

/-- An unassigned complaint. -/
def sampleUnassigned : Complaint :=
  ⟨3, "garbage", "pile uncollected", "ward 1", "Lee", "lee", "medium",
   "in_progress", none⟩

/-- A three-complaint store covering power, health and unassigned. -/
def sampleComplaints : List Complaint :=
  [samplePower, sampleHealth, sampleUnassigned]

/- ===== Helper lemmas ===== -/

theorem filter_step_subset (cs : List Complaint) (f : Complaint → Bool) :
    cs.filter f ⊆ cs :=
  fun _ hc => (List.mem_filter.mp hc).1

theorem searchStep_subset (cs : List Complaint) (q : String) :
    searchStep cs q ⊆ cs := by
  unfold searchStep
  split
  · exact filter_step_subset cs _
  · exact fun _ h => h

theorem statusStep_subset (cs : List Complaint) (status : String) :
    statusStep cs status ⊆ cs := by
  unfold statusStep
  split
  · exact filter_step_subset cs _
  · exact fun _ h => h

theorem priorityStep_subset (cs : List Complaint) (priority : String) :
    priorityStep cs priority ⊆ cs := by
  unfold priorityStep
  split
  · exact filter_step_subset cs _
  · exact fun _ h => h

theorem departmentStep_subset (cs : List Complaint) (dept : String) :
    departmentStep cs dept ⊆ cs := by
  unfold departmentStep
  split
  · exact filter_step_subset cs _
  · split
    · exact filter_step_subset cs _
    · exact fun _ h => h

theorem apply_filters_subset (cs : List Complaint) (p : FilterParams)
    (b : Bool) : apply_filters cs p b ⊆ cs := by
  unfold apply_filters
  have base : priorityStep (statusStep (searchStep cs (pyStrip p.q)) p.status) p.priority ⊆ cs :=
    fun c hc =>
      searchStep_subset cs (pyStrip p.q)
        (statusStep_subset _ p.status (priorityStep_subset _ p.priority hc))
  cases b with
  | false => simpa using base
  | true =>
    simp only [if_true]
    exact fun c hc => base (departmentStep_subset _ p.department hc)

theorem apply_filters_noFilters (cs : List Complaint) (b : Bool) :
    apply_filters cs noFilters b = cs := by
  cases b <;> rfl

theorem department_dashboard_page (d : String) (cs : List Complaint)
    (p : FilterParams) (hd : (deptLookup d).isSome = true) :
    department_dashboard (some d) d cs p =
      .page
        ⟨(departmentVisible d cs).length,
         ((departmentVisible d cs).filter (fun c => decide (c.status = "pending"))).length,
         ((departmentVisible d cs).filter (fun c => decide (c.status = "in_progress"))).length,
         ((departmentVisible d cs).filter (fun c => decide (c.status = "resolved"))).length⟩
        (apply_filters (departmentVisible d cs) p false) := by
  have hn : (deptLookup d).isNone = false := by
    cases h : deptLookup d
    · rw [h] at hd
      cases hd
    · rfl
  unfold department_dashboard
  rw [hn]
  simp

theorem mem_departmentVisible {d : String} {cs : List Complaint}
    {c : Complaint} (h : c ∈ departmentVisible d cs) :
    c ∈ cs ∧ (c.assigned_department = some d ∨ c.assigned_department = none
      ∨ c.assigned_department = some "") := by
  unfold departmentVisible at h
  have := List.mem_filter.mp h
  exact ⟨this.1, of_decide_eq_true this.2⟩

/- ===== Claim theorems ===== -/

/-- C1: with a verified department context, the admin dashboard lists all
complaints (every complaint with no filters, a subset of all complaints
under any filters), while a department dashboard for code d lists only
complaints assigned to d or unassigned (exactly those with no filters),
so a power-department account never sees a health-assigned complaint
under any combination of search, status and priority filters. -/
theorem c1_dashboard_base_visibility (d : String) (cs : List Complaint)
    (p : FilterParams) (c : Complaint)
    (hd : (deptLookup d).isSome = true)
    (hc : c.assigned_department = some "health") :
    (department_dashboard (some d) d cs p).rows ⊆ departmentVisible d cs
    ∧ (department_dashboard (some d) d cs noFilters).rows = departmentVisible d cs
    ∧ (authority_dashboard cs p).2 ⊆ cs
    ∧ (authority_dashboard cs noFilters).2 = cs
    ∧ c ∉ (department_dashboard (some "power") "power" cs p).rows := by
  refine ⟨?_, ?_, ?_, ?_, ?_⟩
  · rw [department_dashboard_page d cs p hd]
    exact apply_filters_subset _ p false
  · rw [department_dashboard_page d cs noFilters hd]
    exact apply_filters_noFilters _ false
  · exact apply_filters_subset cs p true
  · exact apply_filters_noFilters cs true
  · intro hmem
    rw [department_dashboard_page "power" cs p (by decide)] at hmem
    have hvis := apply_filters_subset _ p false hmem
    have hpred := (mem_departmentVisible hvis).2
    rw [hc] at hpred
    exact absurd hpred (by decide)

/-- C1 witness: the power department dashboard over the sample store with
no filters lists exactly the power and unassigned complaints and omits
the health complaint, while the admin dashboard lists all three. -/
theorem c1_dashboard_base_visibility_witness :
    ((deptLookup "power").isSome = true
      ∧ sampleHealth.assigned_department = some "health")
    ∧ ((department_dashboard (some "power") "power" sampleComplaints noFilters).rows
          ⊆ departmentVisible "power" sampleComplaints
        ∧ (department_dashboard (some "power") "power" sampleComplaints noFilters).rows
          = departmentVisible "power" sampleComplaints
        ∧ (authority_dashboard sampleComplaints noFilters).2 ⊆ sampleComplaints
        ∧ (authority_dashboard sampleComplaints noFilters).2 = sampleComplaints
        ∧ sampleHealth ∉ (department_dashboard (some "power") "power"
            sampleComplaints noFilters).rows) :=
  ⟨⟨by decide, rfl⟩,
   c1_dashboard_base_visibility "power" sampleComplaints noFilters sampleHealth
     (by decide) rfl⟩

/-- C2: admin reaches the complaint-detail mutation form for any
complaint; a non-admin department d reaches it exactly when the
complaint is assigned to d or unassigned (null or empty assignment);
every other combination is redirected away before the form. -/
theorem c2_complaint_detail_gate (d : String) (c : Complaint)
    (hadm : d ≠ "admin") (hne : d ≠ "") :
    authority_complaint_detail (some "admin") c = .renderForm c
    ∧ authority_complaint_detail (some d) c =
        (if c.assigned_department = some d ∨ isUnassigned c = true
         then .renderForm c else DetailResult.redirectLanding) := by
  constructor
  · rfl
  · unfold authority_complaint_detail
    rw [if_neg (by simpa using hadm)]
    rcases h : c.assigned_department with _ | a
    · simp [pyTruthy, isUnassigned, h, hne]
    · by_cases ha : a = ""
      · subst ha
        simp [pyTruthy, isUnassigned, h, hne]
      · by_cases had : a = d
        · subst had
          simp [pyTruthy, isUnassigned, h, ha]
        · have had' : ¬ d = a := fun hh => had hh.symm
          simp [pyTruthy, isUnassigned, h, ha, had, had']

/-- C2 witness: the power department is redirected away from a
health-assigned complaint but reaches the form for an unassigned one. -/
theorem c2_complaint_detail_gate_witness :
    (("power" : String) ≠ "admin" ∧ ("power" : String) ≠ "")
    ∧ (authority_complaint_detail (some "admin") sampleHealth
          = .renderForm sampleHealth
        ∧ authority_complaint_detail (some "power") sampleHealth =
            (if sampleHealth.assigned_department = some "power"
                ∨ isUnassigned sampleHealth = true
             then .renderForm sampleHealth else DetailResult.redirectLanding)) :=
  ⟨⟨by decide, by decide⟩,
   c2_complaint_detail_gate "power" sampleHealth (by decide) (by decide)⟩

/-- C3: a well-formed, unexpired token whose embedded isStaff or
department claim differs from the live account state is rejected
outright: get_user_from_token reports the stale-claims error with no
fallback to live values, and the guard redirects to login for every
required_department, so the guarded view never runs. -/
theorem c3_stale_claims_rejected (req : Option String) (claims : TokenClaims)
    (lookup : Nat → Option Account) (user : Account)
    (hlk : lookup claims.userId = some user)
    (hact : user.isActive = true)
    (hdiff : user.isStaff ≠ claims.isStaff ∨ user.department ≠ claims.department) :
    get_user_from_token (.valid claims) lookup
      = (none, none, some "Token claims do not match user state")
    ∧ jwt_authority_required req (.valid claims) lookup = .redirectLogin := by
  have hget : get_user_from_token (.valid claims) lookup
      = (none, none, some "Token claims do not match user state") := by
    simp [get_user_from_token, hlk, hact, hdiff]
  refine ⟨hget, ?_⟩
  unfold jwt_authority_required
  rw [hget]

/-- C3 witness: a token minted for the power department, while the live
account has been moved to health, is rejected by the guard. -/
theorem c3_stale_claims_rejected_witness :
    ((fun i => if i = 1 then some (⟨1, "staffer", true, some "health", true⟩ : Account) else none)
        ((⟨1, "staffer", some "power", true⟩ : TokenClaims).userId)
        = some ⟨1, "staffer", true, some "health", true⟩
      ∧ (⟨1, "staffer", true, some "health", true⟩ : Account).isActive = true
      ∧ ((⟨1, "staffer", true, some "health", true⟩ : Account).isStaff
            ≠ (⟨1, "staffer", some "power", true⟩ : TokenClaims).isStaff
          ∨ (⟨1, "staffer", true, some "health", true⟩ : Account).department
            ≠ (⟨1, "staffer", some "power", true⟩ : TokenClaims).department))
    ∧ (get_user_from_token (.valid ⟨1, "staffer", some "power", true⟩)
          (fun i => if i = 1 then some ⟨1, "staffer", true, some "health", true⟩ else none)
        = (none, none, some "Token claims do not match user state")
      ∧ jwt_authority_required none
          (.valid ⟨1, "staffer", some "power", true⟩)
          (fun i => if i = 1 then some ⟨1, "staffer", true, some "health", true⟩ else none)
        = .redirectLogin) :=
  ⟨⟨rfl, rfl, Or.inr (by decide)⟩,
   c3_stale_claims_rejected none ⟨1, "staffer", some "power", true⟩
     (fun i => if i = 1 then some ⟨1, "staffer", true, some "health", true⟩ else none)
     ⟨1, "staffer", true, some "health", true⟩ rfl rfl (Or.inr (by decide))⟩

/-- C8: the four dashboard aggregate counts are computed over the
unfiltered base-visibility set and do not change when the search, status,
priority or department query parameters change; on the admin dashboard
they are counts over all complaints, on a department dashboard counts
over the department-visible set. -/
theorem c8_stats_filter_invariant (d : String) (cs : List Complaint)
    (p q : FilterParams) (hd : (deptLookup d).isSome = true) :
    (authority_dashboard cs p).1 = (authority_dashboard cs q).1
    ∧ (department_dashboard (some d) d cs p).stats
        = (department_dashboard (some d) d cs q).stats
    ∧ (authority_dashboard cs p).1 =
        ⟨cs.length,
         (cs.filter (fun c => decide (c.status = "pending"))).length,
         (cs.filter (fun c => decide (¬ (c.assigned_department = none
             ∨ c.assigned_department = some ""
             ∨ c.assigned_department = some "admin")))).length,
         (cs.filter (fun c => decide (c.status = "resolved"))).length⟩
    ∧ (department_dashboard (some d) d cs p).stats =
        some ⟨(departmentVisible d cs).length,
          ((departmentVisible d cs).filter (fun c => decide (c.status = "pending"))).length,
          ((departmentVisible d cs).filter (fun c => decide (c.status = "in_progress"))).length,
          ((departmentVisible d cs).filter (fun c => decide (c.status = "resolved"))).length⟩ := by
  refine ⟨rfl, ?_, rfl, ?_⟩
  · rw [department_dashboard_page d cs p hd, department_dashboard_page d cs q hd]
    rfl
  · rw [department_dashboard_page d cs p hd]
    rfl

/-- C8 witness: over the sample store, the power dashboard and the admin
dashboard report the same stats under a restrictive filter combination as
with no filters. -/
theorem c8_stats_filter_invariant_witness :
    (deptLookup "power").isSome = true
    ∧ ((authority_dashboard sampleComplaints ⟨"outage", "resolved", "high", "unassigned"⟩).1
          = (authority_dashboard sampleComplaints noFilters).1
        ∧ (department_dashboard (some "power") "power" sampleComplaints
              ⟨"outage", "resolved", "high", "unassigned"⟩).stats
          = (department_dashboard (some "power") "power" sampleComplaints noFilters).stats
        ∧ (authority_dashboard sampleComplaints ⟨"outage", "resolved", "high", "unassigned"⟩).1 =
            ⟨sampleComplaints.length,
             (sampleComplaints.filter (fun c => decide (c.status = "pending"))).length,
             (sampleComplaints.filter (fun c => decide (¬ (c.assigned_department = none
                 ∨ c.assigned_department = some ""
                 ∨ c.assigned_department = some "admin")))).length,
             (sampleComplaints.filter (fun c => decide (c.status = "resolved"))).length⟩
        ∧ (department_dashboard (some "power") "power" sampleComplaints
              ⟨"outage", "resolved", "high", "unassigned"⟩).stats =
            some ⟨(departmentVisible "power" sampleComplaints).length,
              ((departmentVisible "power" sampleComplaints).filter
                (fun c => decide (c.status = "pending"))).length,
              ((departmentVisible "power" sampleComplaints).filter
                (fun c => decide (c.status = "in_progress"))).length,
              ((departmentVisible "power" sampleComplaints).filter
                (fun c => decide (c.status = "resolved"))).length⟩) :=
  ⟨by decide,
   c8_stats_filter_invariant "power" sampleComplaints
     ⟨"outage", "resolved", "high", "unassigned"⟩ noFilters (by decide)⟩

/-- C9: admin is a directory code, so /authority/admin/ dispatches to the
department dashboard, which an admin-department token passes; there the
visible set is only admin-assigned or unassigned complaints, so a
health-assigned complaint is absent, while the all-complaints view at
/authority/dashboard/ lists it: the two URLs show an admin-department
user different sets. -/
theorem c9_admin_slug_department_dashboard (cs : List Complaint)
    (p : FilterParams) (c : Complaint) (claims : TokenClaims)
    (lookup : Nat → Option Account) (user : Account)
    (hc : c.assigned_department = some "health")
    (hcs : c ∈ cs)
    (hlk : lookup claims.userId = some user)
    (hact : user.isActive = true)
    (hstaff : user.isStaff = true)
    (hs : user.isStaff = claims.isStaff)
    (hdept : user.department = claims.department)
    (hadm : claims.department = some "admin") :
    resolve_url "/authority/admin/" = .departmentDashboard "admin"
    ∧ jwt_authority_required none (.valid claims) lookup
        = .proceed user (some "admin")
    ∧ (department_dashboard (some "admin") "admin" cs noFilters).rows
        = departmentVisible "admin" cs
    ∧ c ∉ (department_dashboard (some "admin") "admin" cs p).rows
    ∧ c ∈ (authority_dashboard cs noFilters).2 := by
  have hget : get_user_from_token (.valid claims) lookup
      = (some user, claims.department, none) := by
    simp [get_user_from_token, hlk, hact, hs, hdept]
  refine ⟨by decide, ?_, ?_, ?_, ?_⟩
  · unfold jwt_authority_required
    rw [hget]
    simp [pyTruthy, hstaff, hadm]
  · rw [department_dashboard_page "admin" cs noFilters (by decide)]
    exact apply_filters_noFilters _ false
  · intro hmem
    rw [department_dashboard_page "admin" cs p (by decide)] at hmem
    have hvis := apply_filters_subset _ p false hmem
    have hpred := (mem_departmentVisible hvis).2
    rw [hc] at hpred
    exact absurd hpred (by decide)
  · rw [show (authority_dashboard cs noFilters).2 = cs from
      apply_filters_noFilters cs true]
    exact hcs

/-- C9 witness: over the sample store, the health complaint is listed by
the all-complaints dashboard but not by the department dashboard the
/authority/admin/ URL dispatches to, for the same admin-department
token. -/
theorem c9_admin_slug_department_dashboard_witness :
    (sampleHealth.assigned_department = some "health"
      ∧ sampleHealth ∈ sampleComplaints
      ∧ sampleLookup (⟨7, "chief", some "admin", true⟩ : TokenClaims).userId
          = some sampleAdmin
      ∧ sampleAdmin.isActive = true
      ∧ sampleAdmin.isStaff = true
      ∧ sampleAdmin.isStaff = (⟨7, "chief", some "admin", true⟩ : TokenClaims).isStaff
      ∧ sampleAdmin.department = (⟨7, "chief", some "admin", true⟩ : TokenClaims).department
      ∧ (⟨7, "chief", some "admin", true⟩ : TokenClaims).department = some "admin")
    ∧ (resolve_url "/authority/admin/" = .departmentDashboard "admin"
        ∧ jwt_authority_required none (.valid ⟨7, "chief", some "admin", true⟩) sampleLookup
            = .proceed sampleAdmin (some "admin")
        ∧ (department_dashboard (some "admin") "admin" sampleComplaints noFilters).rows
            = departmentVisible "admin" sampleComplaints
        ∧ sampleHealth ∉ (department_dashboard (some "admin") "admin"
            sampleComplaints noFilters).rows
        ∧ sampleHealth ∈ (authority_dashboard sampleComplaints noFilters).2) :=
  ⟨⟨rfl, by decide, rfl, rfl, rfl, rfl, rfl, rfl⟩,
   c9_admin_slug_department_dashboard sampleComplaints noFilters sampleHealth
     ⟨7, "chief", some "admin", true⟩ sampleLookup sampleAdmin
     rfl (by decide) rfl rfl rfl rfl rfl rfl⟩

theorem login_mismatch_renders (acct : Account) (next_url X : String)
    (hstaff : acct.isStaff = true)
    (hres : requestedDept next_url = .ok (some X))
    (hmm : acct.department ≠ some X) :
    authority_login_post (some acct) next_url =
      .ok ⟨.renderLogin (if X = "admin" then .adminMismatch else .deptMismatch X),
           []⟩ := by
  unfold authority_login_post
  dsimp only
  rw [if_neg (by simp [hstaff]), hres]
  dsimp only
  by_cases hX : X = "admin"
  · subst hX
    simp [hmm]
  · simp [hX, hmm]

theorem login_cookies_classify (authResult : Option Account)
    (next_url : String) (resp : HttpResponse)
    (hok : authority_login_post authResult next_url = .ok resp) :
    resp.cookies = [] ∨ ∃ t, resp.kind = .redirect t := by
  unfold authority_login_post at hok
  repeat' split at hok
  all_goals first
    | (injection hok with h; subst h; exact Or.inl rfl)
    | (injection hok with h; subst h; exact Or.inr ⟨_, rfl⟩)
    | cases hok

/-- C4: a staff account whose department differs from the department the
next target resolves to (including the admin dashboard for non-admin
accounts) is rejected with the corresponding mismatch render and the
response carries no cookies, even though the password was correct. -/
theorem c4_next_mismatch_no_token (acct : Account) (next_url X : String)
    (hstaff : acct.isStaff = true)
    (hres : requestedDept next_url = .ok (some X))
    (hmm : acct.department ≠ some X) :
    authority_login_post (some acct) next_url =
      .ok ⟨.renderLogin (if X = "admin" then .adminMismatch else .deptMismatch X),
           []⟩ :=
  login_mismatch_renders acct next_url X hstaff hres hmm

/-- C4 witness: a power-department staffer supplying the health dashboard
as next is rejected with the mismatch render and no cookies. -/
theorem c4_next_mismatch_no_token_witness :
    (sampleUser.isStaff = true
      ∧ requestedDept "/authority/health/" = .ok (some "health")
      ∧ sampleUser.department ≠ some "health")
    ∧ authority_login_post (some sampleUser) "/authority/health/" =
        .ok ⟨.renderLogin (if "health" = "admin" then .adminMismatch
                           else .deptMismatch "health"), []⟩ :=
  ⟨⟨rfl, by decide, by decide⟩,
   c4_next_mismatch_no_token sampleUser "/authority/health/" "health"
     rfl (by decide) (by decide)⟩

/-- C5: the login flow is all-or-nothing: every response that re-renders
the login page with a failure reason (invalid credentials, non-staff,
admin or department mismatch, no department) carries no authority
cookies; cookies appear only on redirect responses that minted tokens. -/
theorem c5_failure_no_cookies (authResult : Option Account)
    (next_url : String) (resp : HttpResponse) (r : LoginReject)
    (hok : authority_login_post authResult next_url = .ok resp)
    (hrej : resp.kind = .renderLogin r) :
    resp.cookies = [] := by
  rcases login_cookies_classify authResult next_url resp hok with h | ⟨t, h⟩
  · exact h
  · rw [hrej] at h
    cases h

/-- C5 witness: the rejected staff login toward the wrong department
renders the login page with no cookies set. -/
theorem c5_failure_no_cookies_witness :
    (authority_login_post (some sampleUser) "/authority/health/"
        = .ok ⟨.renderLogin (.deptMismatch "health"), []⟩
      ∧ (⟨.renderLogin (.deptMismatch "health"), []⟩ : HttpResponse).kind
        = .renderLogin (.deptMismatch "health"))
    ∧ (⟨.renderLogin (.deptMismatch "health"), []⟩ : HttpResponse).cookies = [] :=
  ⟨⟨by decide, rfl⟩,
   c5_failure_no_cookies (some sampleUser) "/authority/health/"
     ⟨.renderLogin (.deptMismatch "health"), []⟩ (.deptMismatch "health")
     (by decide) rfl⟩

/-- C6: the department resolver maps the four specified inputs as stated,
and in general its result is a function of the parsed path alone: none
when the path does not begin with the authority route, admin when the
second nonempty segment is the dashboard alias, and otherwise the second
nonempty segment itself as an unvalidated candidate code. -/
theorem c6_resolver_mapping (s : String) (u : UrlParts)
    (hs : s ≠ "") (hu : urlparse s = .ok u) :
    requestedDept "/authority/dashboard/" = .ok (some "admin")
    ∧ requestedDept "/authority/power/" = .ok (some "power")
    ∧ requestedDept "/elsewhere" = .ok none
    ∧ requestedDept "" = .ok none
    ∧ requestedDept s = .ok (resolveFromPath (extractPath u)) := by
  refine ⟨by decide, by decide, by decide, by decide, ?_⟩
  unfold requestedDept
  rw [if_neg hs, hu]
  dsimp only
  unfold resolveFromPath
  by_cases hsw : strStarts (extractPath u) "/authority/" = true
  · rw [if_pos hsw, if_pos hsw]
    cases pathParts (extractPath u) with
    | nil => rfl
    | cons a t =>
      cases t with
      | nil => rfl
      | cons b t2 => rfl
  · rw [if_neg hsw, if_neg hsw]

/-- C6 witness: the general path characterization instantiated at the
power dashboard path. -/
theorem c6_resolver_mapping_witness :
    (("/authority/power/" : String) ≠ ""
      ∧ urlparse "/authority/power/"
        = .ok ⟨"", "", "/authority/power/", "", "", ""⟩)
    ∧ (requestedDept "/authority/dashboard/" = .ok (some "admin")
        ∧ requestedDept "/authority/power/" = .ok (some "power")
        ∧ requestedDept "/elsewhere" = .ok none
        ∧ requestedDept "" = .ok none
        ∧ requestedDept "/authority/power/"
          = .ok (resolveFromPath
              (extractPath ⟨"", "", "/authority/power/", "", "", ""⟩))) :=
  ⟨⟨by decide, by decide⟩,
   c6_resolver_mapping "/authority/power/"
     ⟨"", "", "/authority/power/", "", "", ""⟩ (by decide) (by decide)⟩

/-- C7: contrary to the never-raises requirement, the login view code
raises for a next target whose network location contains an unbalanced
square bracket: urlparse raises the Invalid IPv6 URL ValueError, the
inline resolver propagates it, and so does the whole login POST for a
staff account with correct credentials. -/
theorem c7_resolver_raises_on_bracket :
    urlparse "http://[" = .exn "Invalid IPv6 URL"
    ∧ requestedDept "http://[" = .exn "Invalid IPv6 URL"
    ∧ authority_login_post (some sampleUser) "http://["
        = .exn "Invalid IPv6 URL" := by
  refine ⟨by decide, by decide, by decide⟩

/-- C10: the resolver treats reserved route segments such as complaints
and login as candidate department codes, so for any staff account whose
department differs from the resolved segment the login is rejected with a
department-mismatch render and no cookies; a login can therefore never
land directly on a complaint-detail page via next. -/
theorem c10_reserved_segment_rejected (acct : Account) (next_url seg : String)
    (hstaff : acct.isStaff = true)
    (hres : requestedDept next_url = .ok (some seg))
    (_hseg : seg ≠ "dashboard")
    (hmm : acct.department ≠ some seg) :
    requestedDept "/authority/complaints/5/" = .ok (some "complaints")
    ∧ requestedDept "/authority/login/" = .ok (some "login")
    ∧ authority_login_post (some acct) next_url =
        .ok ⟨.renderLogin (if seg = "admin" then .adminMismatch
                           else .deptMismatch seg), []⟩ :=
  ⟨by decide, by decide, login_mismatch_renders acct next_url seg hstaff hres hmm⟩

/-- C10 witness: a power staffer with a complaint-detail next target is
rejected with a mismatch render naming the complaints segment. -/
theorem c10_reserved_segment_rejected_witness :
    (sampleUser.isStaff = true
      ∧ requestedDept "/authority/complaints/5/" = .ok (some "complaints")
      ∧ ("complaints" : String) ≠ "dashboard"
      ∧ sampleUser.department ≠ some "complaints")
    ∧ (requestedDept "/authority/complaints/5/" = .ok (some "complaints")
        ∧ requestedDept "/authority/login/" = .ok (some "login")
        ∧ authority_login_post (some sampleUser) "/authority/complaints/5/" =
            .ok ⟨.renderLogin (if "complaints" = "admin" then .adminMismatch
                               else .deptMismatch "complaints"), []⟩) :=
  ⟨⟨rfl, by decide, by decide, by decide⟩,
   c10_reserved_segment_rejected sampleUser "/authority/complaints/5/"
     "complaints" rfl (by decide) (by decide) (by decide)⟩

end ComplaintSystem
